import Mathlib

/-!
Verification of the nidmd-dashboard interaction core (src/main/python/dashboard.py).

The development shallowly embeds the upload → parse → session-state → validate
flow of the dashboard.  Pure Python helpers become Lean functions; the mutable
`Dashboard` attributes become an explicit `Session` record threaded through the
handlers; Python exceptions become `Except PyErr`.  External collaborators
(scipy's `loadmat`, numpy's `genfromtxt`, and the nidmd analysis library) are
modelled as oracle fields of an `Ext` record: the embedding only fixes their
interface types, and concrete instantiations are used for closed evaluations.
Text manipulated by the ingestor is modelled as `List Char`; numbers that
Python holds as `float` inputs are modelled as `ℚ` where their exact value is
irrelevant to the stated properties.
-/

namespace Nidmd

/-- Numeric matrix extracted from one uploaded file (`numpy` 2-d array). -/
abbrev Matrix := List (List ℚ)

/-- Python exceptions that the handlers of dashboard.py raise or propagate.
`toMessage` models Python's `str(e)`, which for these kinds is the message. -/
inductive PyErr
  | importError (msg : String)
  | valueError (msg : String)
  | typeError (msg : String)
  | binasciiError (msg : String)
deriving DecidableEq, Repr

/-- Python `str(e)` for the modelled exception kinds. -/
def PyErr.toMessage : PyErr → String
  | PyErr.importError m => m
  | PyErr.valueError m => m
  | PyErr.typeError m => m
  | PyErr.binasciiError m => m

/-- Python `str.split(sep)` for a one-character separator: `"a,,b"` gives
`["a", "", "b"]` and `""` gives `[""]`. -/
def pySplit (sep : Char) : List Char → List (List Char)
  | [] => [[]]
  | c :: cs =>
    if c = sep then [] :: pySplit sep cs
    else
      match pySplit sep cs with
      | [] => [[c]]
      | p :: ps => (c :: p) :: ps

/-- Python tuple unpacking `a, b = parts` of a list into exactly two targets:
any other length raises `ValueError` (dashboard.py lines 629 and 647). -/
def unpack2 (parts : List (List Char)) : Except PyErr (List Char × List Char) :=
  match parts with
  | [a, b] => Except.ok (a, b)
  | [_] => Except.error (PyErr.valueError ("not enough values to unpack (expected 2, got 1)"))
  | [] => Except.error (PyErr.valueError ("not enough values to unpack (expected 2, got 0)"))
  | _ => Except.error (PyErr.valueError ("too many values to unpack (expected 2)"))

/-- Value of a character in the standard base64 alphabet. -/
def b64Index (c : Char) : Option ℕ :=
  if 'A' ≤ c ∧ c ≤ 'Z' then some (c.toNat - 65)
  else if 'a' ≤ c ∧ c ≤ 'z' then some (c.toNat - 97 + 26)
  else if '0' ≤ c ∧ c ≤ '9' then some (c.toNat - 48 + 52)
  else if c = '+' then some 62
  else if c = '/' then some 63
  else none

/-- Decode base64 quartets into bytes; `=` padding is only legal at the end.
A leftover of fewer than four characters raises `binascii.Error`. -/
def b64Groups : List Char → Except PyErr (List ℕ)
  | [] => Except.ok []
  | c1 :: c2 :: c3 :: c4 :: rest =>
    match b64Index c1, b64Index c2 with
    | some v1, some v2 =>
      if c3 = '=' ∧ c4 = '=' then
        if rest = [] then Except.ok [v1 * 4 + v2 / 16]
        else Except.error (PyErr.binasciiError ("Invalid base64-encoded string"))
      else if c4 = '=' then
        (match b64Index c3 with
         | some v3 =>
           if rest = [] then Except.ok [v1 * 4 + v2 / 16, v2 % 16 * 16 + v3 / 4]
           else Except.error (PyErr.binasciiError ("Invalid base64-encoded string"))
         | none => Except.error (PyErr.binasciiError ("Invalid base64-encoded string")))
      else
        (match b64Index c3, b64Index c4 with
         | some v3, some v4 =>
           (match b64Groups rest with
            | Except.error e => Except.error e
            | Except.ok tail =>
              Except.ok ((v1 * 4 + v2 / 16) :: (v2 % 16 * 16 + v3 / 4) :: (v3 % 4 * 64 + v4) :: tail))
         | _, _ => Except.error (PyErr.binasciiError ("Invalid base64-encoded string")))
    | _, _ => Except.error (PyErr.binasciiError ("Invalid base64-encoded string"))
  | _ => Except.error (PyErr.binasciiError ("Invalid base64-encoded string"))

/-- Model of Python's `base64.b64decode` (external standard library) with its
default `validate=False`: characters outside the alphabet are discarded, then
the remaining characters are decoded in groups of four. -/
def b64decode (s : List Char) : Except PyErr (List ℕ) :=
  b64Groups (s.filter (fun c => (b64Index c).isSome ∨ c = '='))

/-- Model of `bytes.decode('utf-8')` for the ASCII payloads the ingestor
handles: each byte becomes the character with that code point. -/
def bytesToChars (bs : List ℕ) : List Char :=
  bs.map (fun b => Char.ofNat b)

/-- Model of `pathlib.Path(name).suffix`: the part of the file name from the
last dot on, empty for names without a dot, for hidden files such as
`".mat"`, and for names ending in a dot. -/
def pathSuffix (name : List Char) : List Char :=
  match (pySplit '.' name).reverse with
  | last :: more :: restRev =>
    if last = [] then []
    else if more = [] ∧ restRev = [] then []
    else '.' :: last
  | _ => []

/-- The shared first step of both ingestor branches (dashboard.py lines
629-631 and 647-649): `_, string = content.split(',')` followed by
`base64.b64decode(string)`. -/
def extractPayload (content : List Char) : Except PyErr (List ℕ) :=
  match unpack2 (pySplit ',' content) with
  | Except.error e => Except.error e
  | Except.ok p => b64decode p.2

/-- Modelled from the spec: the upload payload encoding contract of section 6,
"the ingestor must split on the first comma and base64-decode the remainder".
Splitting on the first comma keeps any later commas inside the remainder. -/
def extractPayloadSpec (content : List Char) : Except PyErr (List ℕ) :=
  match pySplit ',' content with
  | _ :: rest =>
    if rest = [] then
      Except.error (PyErr.valueError ("not enough values to unpack (expected 2, got 1)"))
    else b64decode (List.intercalate [','] rest)
  | [] => Except.error (PyErr.valueError ("not enough values to unpack (expected 2, got 0)"))

/-- Cortical atlas associated with a decomposition (external nidmd object);
only its size is ever read by this repository (dashboard.py line 333). -/
structure Atlas where
  size : ℕ
  name : String
deriving DecidableEq, Repr

/-- Decomposition result (external nidmd object): opaque to this layer except
for its atlas; `sig` stands for the unexamined analysis payload. -/
structure Decomposition where
  atlas : Atlas
  sig : ℕ
deriving DecidableEq, Repr

/-- Interfaces of the external collaborators: scipy's `loadmat`, numpy's
`genfromtxt`, and the nidmd `Decomposition` constructor, `run` method and
`compute_match` method.  Each may raise, except `genfromtxt`, which by its
numpy contract always returns an ndarray (possibly empty), never `None`. -/
structure Ext where
  loadmat : List ℕ → Except PyErr (List (List Char × Matrix))
  genfromtxt : List Char → Except PyErr Matrix
  mkDecomposition : List (Option Matrix) → ℚ → Except PyErr Decomposition
  runDcp : Decomposition → Except PyErr Unit
  compute_match : Decomposition → Decomposition → ℤ → Except PyErr (ℕ × ℕ × ℕ)

/-- A `.mat` entry qualifies when its key does not start with the reserved
metadata marker: `key[:2] != '__'` (dashboard.py line 636). -/
def qualifies (kv : List Char × Matrix) : Bool :=
  decide (kv.1.take 2 ≠ ("__").toList)

/-- Parse one uploaded file of a batch (the loop body of `_parse_files`,
dashboard.py lines 623-660).  A `.mat` payload is decoded and the loop over
`matfile.keys()` leaves `d` holding the matrix of the last qualifying key;
a `.csv` payload is decoded, utf-8 decoded and fed to `genfromtxt`, and the
source's `if d is None` guard is kept verbatim; any other suffix leaves `d`
as `None`. -/
def parseFile (ext : Ext) (content name : List Char) : Except PyErr (Option Matrix) :=
  if pathSuffix name = (".mat").toList then
    match extractPayload content with
    | Except.error e => Except.error e
    | Except.ok bytes =>
      match ext.loadmat bytes with
      | Except.error e => Except.error e
      | Except.ok matfile =>
        let d := matfile.foldl (fun d kv => if qualifies kv then some kv.2 else d) none
        match d with
        | none => Except.error (PyErr.importError ("Invalid .mat file, no matrices inside."))
        | some m => Except.ok (some m)
  else if pathSuffix name = (".csv").toList then
    match extractPayload content with
    | Except.error e => Except.error e
    | Except.ok decoded =>
      match ext.genfromtxt (bytesToChars decoded) with
      | Except.error e => Except.error e
      | Except.ok m =>
        let d : Option Matrix := some m
        if d = none then Except.error (PyErr.importError ("Problem reading the csv file."))
        else Except.ok d
  else Except.ok none

/-- Python `int()` applied to a non-integral number: truncation toward zero.
The quantity it is applied to (dashboard.py line 333) is a `float` product in
the source; this embedding computes it with exact rational arithmetic. -/
def pyInt (q : ℚ) : ℤ :=
  if 0 ≤ q then ⌊q⌋ else -⌊-q⌋

/-- The mutable session state: the `Dashboard` attributes initialized in the
constructor (dashboard.py lines 50-65) and cleared by the reset handler
(lines 451-460).  The opaque match table and series are modelled as tags. -/
structure Session where
  dcp1 : Option Decomposition
  dcp2 : Option Decomposition
  match_group : Option Decomposition
  match_df : Option ℕ
  match_x : Option ℕ
  match_y : Option ℕ
  atlas : Option Atlas
  progressCounter : ℚ
  valid : Bool
  imag : Bool
deriving DecidableEq, Repr

/-- The empty session: every optional field absent, progress 0, flags false
(dashboard.py lines 50-65 and, identically, lines 451-460). -/
def initSession : Session :=
  { dcp1 := none, dcp2 := none, match_group := none, match_df := none,
    match_x := none, match_y := none, atlas := none, progressCounter := 0,
    valid := false, imag := false }

/-- The batch ingestor `_parse_files` (dashboard.py lines 607-668): parse each
(content, name) pair of `zip(contents, files)`, hand the matrices to the
external `Decomposition` constructor, and on success capture the resulting
atlas into the session (`self.atlas = dcp.atlas`, line 666).  A missing file
name list raises `TypeError` at the initial `len(files)` logging call, before
any state change. -/
def parse_files (ext : Ext) (sess : Session) (contents : List (List Char))
    (files : Option (List (List Char))) (samplingTime : ℚ) :
    Except PyErr (Decomposition × Session) :=
  match files with
  | none => Except.error (PyErr.typeError ("object of type 'NoneType' has no len()"))
  | some fs =>
    match (contents.zip fs).mapM (fun cf => parseFile ext cf.1 cf.2) with
    | Except.error e => Except.error e
    | Except.ok data =>
      match ext.mkDecomposition data samplingTime with
      | Except.error e => Except.error e
      | Except.ok dcp => Except.ok (dcp, { sess with atlas := some dcp.atlas })

/-- Slot-1 part of the `upload` handler's try block (dashboard.py lines
297-307): when slot 1 holds contents, parse them into `self.dcp1` and run the
decomposition (`run()` mutates internals of the stored object; it neither
replaces the object nor its atlas).  Returns the session as mutated so far
together with the exception, if one was raised. -/
def slot1Step (ext : Ext) (sess : Session) (contents1 : Option (List (List Char)))
    (names1 : Option (List (List Char))) (time : ℚ) : Session × Option PyErr :=
  match contents1 with
  | none => (sess, none)
  | some c1 =>
    match parse_files ext sess c1 names1 time with
    | Except.error e => (sess, some e)
    | Except.ok (dcp, s1) =>
      let s2 := { s1 with dcp1 := some dcp }
      match ext.runDcp dcp with
      | Except.error e => (s2, some e)
      | Except.ok _ => (s2, none)

/-- Slot-2 part of the `upload` handler's try block (dashboard.py lines
309-341): guarded by `setting != 1` and by slot 2 holding contents while
`self.dcp2` or `self.match_group` is still unset.  Setting 2 populates
`self.dcp2`; setting 3 populates `self.match_group`, then raises
`ImportError` if the reference `self.dcp1` is still absent, and otherwise
computes the match into `self.match_df`, `self.match_x`, `self.match_y`,
with `no_modes = int(approx_deg / 100.0 * self.match_group.atlas.size)`. -/
def slot2Step (ext : Ext) (sess : Session) (setting : Option ℤ)
    (contents2 : Option (List (List Char))) (names2 : Option (List (List Char)))
    (time approx_deg : ℚ) : Session × Option PyErr :=
  if setting ≠ some 1 then
    if contents2 ≠ none ∧ (sess.dcp2 = none ∨ sess.match_group = none) then
      if setting = some 2 then
        (match contents2 with
         | none => (sess, none)
         | some c2 =>
           match parse_files ext sess c2 names2 time with
           | Except.error e => (sess, some e)
           | Except.ok (dcp, s1) =>
             let s2 := { s1 with dcp2 := some dcp }
             (match ext.runDcp dcp with
              | Except.error e => (s2, some e)
              | Except.ok _ => (s2, none)))
      else if setting = some 3 then
        (match contents2 with
         | none => (sess, none)
         | some c2 =>
           match parse_files ext sess c2 names2 time with
           | Except.error e => (sess, some e)
           | Except.ok (dcp, s1) =>
             let s2 := { s1 with match_group := some dcp }
             (match ext.runDcp dcp with
              | Except.error e => (s2, some e)
              | Except.ok _ =>
                (match s2.dcp1 with
                 | none =>
                   (s2, some (PyErr.importError
                     ("Please upload Reference group before Match group.")))
                 | some d1 =>
                   let no_modes : ℤ := pyInt (approx_deg / 100 * (dcp.atlas.size : ℚ))
                   (match ext.compute_match d1 dcp no_modes with
                    | Except.error e => (s2, some e)
                    | Except.ok m =>
                      ({ s2 with match_df := some m.1, match_x := some m.2.1,
                                 match_y := some m.2.2 }, none)))))
      else (sess, none)
    else (sess, none)
  else (sess, none)

/-- Outputs of the `upload` handler that concern this core: the import-alert
message, whether an error was caught, and whether the handler raised
`PreventUpdate` (leaving every output untouched). -/
structure UploadOut where
  message : String
  error : Bool
  noUpdate : Bool
deriving DecidableEq, Repr

/-- The try block of the `upload` callback (dashboard.py lines 295-341): the
slot-1 step followed, when it raised no exception, by the slot-2 step. -/
def tryBody (ext : Ext) (sess : Session) (setting : Option ℤ)
    (contents1 contents2 names1 names2 : Option (List (List Char)))
    (time approx_deg : ℚ) : Session × Option PyErr :=
  match slot1Step ext sess contents1 names1 time with
  | (s, some e) => (s, some e)
  | (s, none) => slot2Step ext s setting contents2 names2 time approx_deg

/-- The `upload` callback (dashboard.py lines 263-363), restricted to its
session-state effect: `PreventUpdate` when all four upload inputs are `None`;
otherwise the try block runs, and a caught exception becomes the alert
message `str(e)` while the mutations performed before the raise persist. -/
def upload (ext : Ext) (sess : Session) (setting : Option ℤ)
    (contents1 contents2 names1 names2 : Option (List (List Char)))
    (time approx_deg : ℚ) : Session × UploadOut :=
  if contents1 = none ∧ contents2 = none ∧ names1 = none ∧ names2 = none then
    (sess, { message := "", error := false, noUpdate := true })
  else
    let r := tryBody ext sess setting contents1 contents2 names1 names2 time approx_deg
    (r.1,
     match r.2 with
     | some e => { message := e.toMessage, error := true, noUpdate := false }
     | none => { message := "", error := false, noUpdate := false })

/-- The message fragments appended by the `validate` callback's if/elif chain
(dashboard.py lines 406-429), in append order; the source's `error` flag is
set exactly when at least one fragment is appended. -/
def validatePieces (sess : Session) (setting : Option ℤ) : List String :=
  match setting with
  | some v =>
    if v = 1 then
      (if sess.dcp1 = none then ["No file(s) chosen. "] else [])
    else if v = 2 then
      (if sess.dcp1 = none ∨ sess.dcp2 = none then
        [if sess.dcp2 = none then "Group 2 missing. " else "Group 1 missing. "]
       else [])
    else if v = 3 then
      (if sess.dcp1 = none then ["Reference group missing. "] else []) ++
      (if sess.match_df = none then ["Match group is loading. Please wait. "] else [])
    else
      (if sess.atlas = none then ["Parsing unsuccessful, no atlas found. "] else [])
  | none => ["No setting chosen. "]

/-- The `validate` callback (dashboard.py lines 392-438), restricted to its
session effect and message: returns (message, error, new valid flag).  The
message is the concatenation of the appended fragments, suffixed by the
log pointer when an error occurred; `self.valid` is set to true exactly when
no deficiency was found and is left unchanged otherwise. -/
def validate (sess : Session) (setting : Option ℤ) : String × Bool × Bool :=
  let pieces := validatePieces sess setting
  let error := pieces ≠ []
  (String.join pieces ++ (if error then "Check log for more info." else ""),
   error,
   if error then sess.valid else true)

/-- The `progress` callback (dashboard.py lines 593-602): display
`min(self.progress % 110, 100)` and format the label `"{} %"` from the
displayed value when it is at least 5 and from the empty string otherwise. -/
def progress (selfProgress : ℕ) : ℕ × String :=
  let prog := min (selfProgress % 110) 100
  (prog, (if prog ≥ 5 then toString prog else "") ++ " %")

/-- UI events that touch the session or the setting radio: selecting a mode
(`input_setting` reads the radio but writes no session field), an upload, and
the reset button (`rst`, dashboard.py lines 445-462, which clears every
session field and rebuilds the layout, resetting the radio to no value). -/
inductive Event
  | setMode (v : Option ℤ)
  | uploadEv (c1 c2 n1 n2 : Option (List (List Char))) (time approx : ℚ)
  | resetEv

/-- Combined state of the interaction machine: the setting radio value and
the session. -/
structure UIState where
  setting : Option ℤ
  sess : Session
deriving DecidableEq, Repr

/-- Initial machine state: no mode selected, empty session. -/
def initUI : UIState :=
  { setting := none, sess := initSession }

/-- One step of the interaction machine, instrumented with the list of
setting values in force at each upload event since the last reset. -/
def stepLog (ext : Ext) (p : UIState × List (Option ℤ)) (e : Event) :
    UIState × List (Option ℤ) :=
  match e with
  | Event.setMode v => ({ p.1 with setting := v }, p.2)
  | Event.uploadEv c1 c2 n1 n2 t a =>
    ({ p.1 with
        sess := (upload ext p.1.sess p.1.setting c1 c2 n1 n2 t a).1 },
     p.2 ++ [p.1.setting])
  | Event.resetEv => (initUI, [])

/-- Run the interaction machine from the initial state over an event list,
returning the final state and the instrumented upload-setting record. -/
def runLog (ext : Ext) (es : List Event) : UIState × List (Option ℤ) :=
  es.foldl (stepLog ext) (initUI, [])

/-- A concrete atlas for closed evaluations (the Glasser atlas of the nidmd
library has 360 regions). -/
def atlasA : Atlas :=
  { size := 360, name := "glasser" }

/-- Concrete external collaborators for closed evaluations: a `.mat`
container with metadata key "__header" and data keys "a" and "b", a
`genfromtxt` returning a 1×1 table, and a decomposition library that
succeeds. -/
def extC : Ext :=
  { loadmat := fun _ =>
      Except.ok [(("__header").toList, [[5]]), (("a").toList, [[1]]), (("b").toList, [[2]])],
    genfromtxt := fun _ => Except.ok [[1]],
    mkDecomposition := fun _ _ => Except.ok { atlas := atlasA, sig := 7 },
    runDcp := fun _ => Except.ok (),
    compute_match := fun _ _ _ => Except.ok (11, 12, 13) }

/-- Variant of `extC` whose `genfromtxt` behaves as numpy does on an empty
input file: it warns and returns an empty array (it does not return `None`
and does not raise). -/
def extEmptyCsv : Ext :=
  { extC with genfromtxt := fun _ => Except.ok [] }

/-- A well-formed upload content descriptor: metadata, one comma, and the
base64 encoding of the byte "1". -/
def csvDescriptor : List Char :=
  ("data,MQ==").toList

/-- Concrete uploaded file names for closed evaluations. -/
def csvName : List Char :=
  ("f.csv").toList

/-- Concrete `.mat` file name for closed evaluations. -/
def matName : List Char :=
  ("f.mat").toList

/-- Event trace that uploads both comparison groups under setting 2 and then,
after switching the radio to setting 3 without a reset, uploads a match
group into slot 2. -/
def mixedModeTrace : List Event :=
  [Event.setMode (some 2),
   Event.uploadEv (some [csvDescriptor]) (some [csvDescriptor])
     (some [csvName]) (some [csvName]) (72/100) 5,
   Event.setMode (some 3),
   Event.uploadEv none (some [csvDescriptor]) none (some [csvName]) (72/100) 5]

/-- Event trace whose uploads all happen under setting 2. -/
def singleModeTrace : List Event :=
  [Event.setMode (some 2),
   Event.uploadEv (some [csvDescriptor]) (some [csvDescriptor])
     (some [csvName]) (some [csvName]) (72/100) 5]

/-- Modelled from the spec: the preconditions of the run-validation handler,
"Session.mode set; required slot(s) populated per mode (slot 2 optional only
in Analysis)".  Analysis requires the reference decomposition, Comparison
requires both group decompositions, and MatchModes requires the reference
and the computed match result. -/
def requiredPresentSpec (sess : Session) : Option ℤ → Bool
  | some 1 => sess.dcp1.isSome
  | some 2 => sess.dcp1.isSome && sess.dcp2.isSome
  | some 3 => sess.dcp1.isSome && sess.match_df.isSome
  | _ => false

/-- A fold that overwrites its accumulator at every element satisfying the
predicate ends at the image of the last such element, or at the initial
accumulator when no element qualifies. -/
lemma foldl_select_eq_getLast {α β : Type} (p : α → Bool) (f : α → β) :
    ∀ (l : List α) (acc : Option β),
      l.foldl (fun d x => if p x then some (f x) else d) acc
        = ((l.filter p).getLast?).elim acc (fun x => some (f x)) := by
  intro l
  induction l with
  | nil => intro acc; simp
  | cons a l ih =>
    intro acc
    rw [List.foldl_cons, ih]
    by_cases hpa : p a
    · rw [List.filter_cons_of_pos hpa]
      cases hfl : l.filter p with
      | nil => simp [hpa]
      | cons b bs =>
        rw [List.getLast?_cons_cons,
          List.getLast?_eq_getLast (b :: bs) (List.cons_ne_nil b bs)]
        simp
    · rw [List.filter_cons_of_neg (by simpa using hpa)]
      simp [hpa]

/-- C1: for every uploaded `.mat` file whose decoded container holds at least
one top-level entry with a non-metadata key (a key not starting with the
reserved `__` prefix), `parseFile` extracts the matrix stored under the last
qualifying key in iteration order; with zero qualifying entries it fails with
the NoMatrixFound error "Invalid .mat file, no matrices inside.". -/
theorem C1_mat_last_qualifying_entry (ext : Ext) (content name : List Char)
    (bytes : List ℕ) (entries : List (List Char × Matrix))
    (hsuf : pathSuffix name = (".mat").toList)
    (hpay : extractPayload content = Except.ok bytes)
    (hload : ext.loadmat bytes = Except.ok entries) :
    (∀ kv, (entries.filter qualifies).getLast? = some kv →
      parseFile ext content name = Except.ok (some kv.2)) ∧
    ((entries.filter qualifies).getLast? = none →
      parseFile ext content name = Except.error
        (PyErr.importError ("Invalid .mat file, no matrices inside."))) := by
  have hfold := foldl_select_eq_getLast qualifies (fun kv => kv.2) entries none
  constructor
  · intro kv hlast
    unfold parseFile
    rw [hsuf, if_pos rfl, hpay]
    simp only [hload, hfold, hlast, Option.elim]
  · intro hlast
    unfold parseFile
    rw [hsuf, if_pos rfl, hpay]
    simp only [hload, hfold, hlast, Option.elim]

/-- Witness for C1: on a container whose qualifying keys are "a" then "b",
the ingestor returns the matrix stored under "b". -/
theorem C1_witness :
    parseFile extC csvDescriptor matName = Except.ok (some [[2]]) := by
  have h := C1_mat_last_qualifying_entry extC csvDescriptor matName [49]
    [(("__header").toList, [[5]]), (("a").toList, [[1]]), (("b").toList, [[2]])]
    (by decide) rfl rfl
  exact h.1 ((("b").toList, [[2]])) rfl

/-- C7 counterexample: the claim's scenario "internal progress 105 displays
value 5 with visible label 5 %" is false: `105 % 110 = 105` and
`min(105, 100) = 100`, so the tick displays 100 with label "100 %". -/
theorem C7_counterexample :
    progress 105 = (100, "100 %") ∧ (progress 105).1 ≠ 5 ∧ (progress 105).2 ≠ "5 %" := by
  refine ⟨rfl, ?_, ?_⟩ <;> decide

/-- C7 amended: for every internal progress value p the tick displays
`min(p % 110, 100)`; the numeric part of the label is blank (the label is
" %") when the displayed value is below 5 and is the displayed value
otherwise; internal progress 250 displays "30 %", and internal progress 105
displays 100 with label "100 %" (not 5 as originally claimed). -/
theorem C7_amended (p : ℕ) :
    (progress p).1 = min (p % 110) 100 ∧
    ((progress p).1 < 5 → (progress p).2 = " %") ∧
    (5 ≤ (progress p).1 → (progress p).2 = toString (progress p).1 ++ " %") ∧
    progress 250 = (30, "30 %") ∧
    progress 105 = (100, "100 %") := by
  refine ⟨rfl, ?_, ?_, rfl, rfl⟩
  · intro h
    have h5 : min (p % 110) 100 < 5 := h
    show (if min (p % 110) 100 ≥ 5 then toString (min (p % 110) 100) else "") ++ " %" = " %"
    rw [if_neg (by omega)]
    rfl
  · intro h
    have h5 : 5 ≤ min (p % 110) 100 := h
    show (if min (p % 110) 100 ≥ 5 then toString (min (p % 110) 100) else "") ++ " %"
        = toString (progress p).1 ++ " %"
    rw [if_pos h5]
    rfl

/-- Witness for C7 amended: at internal progress 2 the displayed value is
below 5 and the label is blank. -/
theorem C7_amended_witness : (progress 2).2 = " %" :=
  (C7_amended 2).2.1 (by decide)

/-- C5: for every `.csv` upload whose payload decodes, whatever table
`genfromtxt` returns — including the empty table it returns for an empty or
non-tabular input — `parseFile` succeeds with exactly that table.  The
source's MalformedCsv guard `if d is None` can never fire because
`genfromtxt` returns an ndarray, never `None`: empty or unparseable `.csv`
input does NOT fail with the MalformedCsv error, contradicting the claim. -/
theorem C5_csv_guard_dead (ext : Ext) (content name : List Char)
    (decoded : List ℕ) (m : Matrix)
    (hsuf : pathSuffix name = (".csv").toList)
    (hpay : extractPayload content = Except.ok decoded)
    (hgen : ext.genfromtxt (bytesToChars decoded) = Except.ok m) :
    parseFile ext content name = Except.ok (some m) := by
  unfold parseFile
  rw [hsuf, if_neg (by decide), if_pos rfl, hpay]
  simp only [hgen]
  rfl

/-- Witness for C5: the failing input — an uploaded file "empty.csv" whose
descriptor "data," carries an empty body.  numpy's `genfromtxt` returns an
empty array on empty input, so the parse succeeds with an empty matrix
instead of raising the MalformedCsv error. -/
theorem C5_witness :
    parseFile extEmptyCsv (("data,").toList) (("empty.csv").toList)
      = Except.ok (some []) :=
  C5_csv_guard_dead extEmptyCsv (("data,").toList) (("empty.csv").toList) [] []
    (by decide) rfl rfl

/-- C9: for settings 1, 2 and 3 (Analysis, Comparison, MatchModes) the
validation handler never appends the atlas-missing message: that branch sits
on the final `elif` of the chain and is reachable only for settings outside
the three modes. -/
theorem C9_atlas_branch_unreachable (sess : Session) (setting : Option ℤ)
    (h : setting = some 1 ∨ setting = some 2 ∨ setting = some 3) :
    "Parsing unsuccessful, no atlas found. " ∉ validatePieces sess setting := by
  rcases h with h | h | h <;> subst h <;>
    simp only [validatePieces, if_pos, if_neg] <;>
    split_ifs <;> simp_all

/-- Witness for C9: the empty session under setting 1 (whose atlas IS
absent) still never produces the atlas-missing message. -/
theorem C9_witness :
    "Parsing unsuccessful, no atlas found. " ∉ validatePieces initSession (some 1) :=
  C9_atlas_branch_unreachable initSession (some 1) (Or.inl rfl)

/-- C6: the run-validation handler is a total function of the session and
setting (it never raises); it sets `valid` to true exactly when every input
the selected mode requires is present, leaves `valid` unchanged otherwise,
produces an empty message on success, and accumulates simultaneous
deficiencies into one message (shown for MatchModes with both the reference
and the match result missing). -/
theorem C6_validate_exact (sess : Session) (setting : Option ℤ)
    (hs : setting = none ∨ setting = some 1 ∨ setting = some 2 ∨ setting = some 3) :
    ((validate sess setting).2.1 = false ↔ requiredPresentSpec sess setting = true) ∧
    ((validate sess setting).2.1 = false →
      (validate sess setting).2.2 = true ∧ (validate sess setting).1 = "") ∧
    ((validate sess setting).2.1 = true → (validate sess setting).2.2 = sess.valid) ∧
    (setting = some 3 → sess.dcp1 = none → sess.match_df = none →
      (validate sess setting).1 =
        "Reference group missing. Match group is loading. Please wait. " ++
          "Check log for more info.") := by
  rcases hs with h | h | h | h <;> subst h <;>
    rcases hd1 : sess.dcp1 with _ | d1 <;>
    rcases hd2 : sess.dcp2 with _ | d2 <;>
    rcases hdf : sess.match_df with _ | df <;>
    simp_all [validate, validatePieces, requiredPresentSpec, String.join]

/-- Witness for C6: for the empty session with no setting chosen, the
validation fails and required inputs are absent. -/
theorem C6_witness :
    (validate initSession none).2.1 = false ↔ requiredPresentSpec initSession none = true :=
  (C6_validate_exact initSession none (Or.inl rfl)).1

/-- Splitting a text not containing the separator returns the text as the
single field. -/
lemma pySplit_of_not_mem {sep : Char} {s : List Char} (h : sep ∉ s) :
    pySplit sep s = [s] := by
  induction s with
  | nil => rfl
  | cons c cs ih =>
    have h1 : ¬ c = sep := fun e => h (by rw [e]; exact List.mem_cons_self _ _)
    have h2 : sep ∉ cs := fun m => h (List.mem_cons_of_mem _ m)
    unfold pySplit
    rw [if_neg h1, ih h2]

/-- Splitting a text made of a separator-free part, one separator, and a
remainder yields that part as first field followed by the split remainder. -/
lemma pySplit_append {sep : Char} (p : List Char) {m : List Char} (h : sep ∉ m) :
    pySplit sep (m ++ sep :: p) = m :: pySplit sep p := by
  induction m with
  | nil =>
    show pySplit sep (sep :: p) = [] :: pySplit sep p
    simp [pySplit]
  | cons c cs ih =>
    have h1 : ¬ c = sep := fun e => h (by rw [e]; exact List.mem_cons_self _ _)
    have h2 : sep ∉ cs := fun mm => h (List.mem_cons_of_mem _ mm)
    show pySplit sep (c :: (cs ++ sep :: p)) = (c :: cs) :: pySplit sep p
    simp only [pySplit]
    rw [if_neg h1, ih h2]

/-- Splitting always returns at least one field. -/
lemma pySplit_ne_nil (sep : Char) (s : List Char) : pySplit sep s ≠ [] := by
  cases s with
  | nil => simp [pySplit]
  | cons c cs =>
    unfold pySplit
    split_ifs
    · simp
    · cases h : pySplit sep cs <;> simp

/-- The number of fields is one more than the number of separators. -/
lemma length_pySplit (sep : Char) (s : List Char) :
    (pySplit sep s).length = s.count sep + 1 := by
  induction s with
  | nil => simp [pySplit]
  | cons c cs ih =>
    unfold pySplit
    by_cases h : c = sep
    · rw [if_pos h]
      subst h
      simp [List.count_cons, ih]
    · rw [if_neg h]
      cases hps : pySplit sep cs with
      | nil => exact absurd hps (pySplit_ne_nil sep cs)
      | cons q qs =>
        rw [hps] at ih
        have hne : ¬ sep = c := fun e => h e.symm
        simp [List.count_cons, hne, ← ih]

/-- C8 counterexample: the descriptor "meta,MQ,==" contains more than one
comma.  Splitting on the first comma and base64-decoding the remainder
(`extractPayloadSpec`, the claimed behavior) yields the byte 49, but the
code's `_, string = content.split(',')` raises a ValueError: the two
computations disagree on a multi-comma descriptor. -/
theorem C8_counterexample :
    1 ≤ (("meta,MQ,==").toList).count ',' ∧
    extractPayload (("meta,MQ,==").toList)
      = Except.error (PyErr.valueError ("too many values to unpack (expected 2)")) ∧
    extractPayloadSpec (("meta,MQ,==").toList) = Except.ok [49] ∧
    extractPayload (("meta,MQ,==").toList) ≠ extractPayloadSpec (("meta,MQ,==").toList) := by
  refine ⟨by decide, rfl, rfl, ?_⟩
  intro h
  have h1 : extractPayload (("meta,MQ,==").toList)
      = Except.error (PyErr.valueError ("too many values to unpack (expected 2)")) := rfl
  have h2 : extractPayloadSpec (("meta,MQ,==").toList) = Except.ok [49] := rfl
  rw [h1, h2] at h
  exact Except.noConfusion h

/-- C8 amended: the ingestor splits the descriptor on every comma and
requires exactly two parts.  For a descriptor with exactly one comma it
base64-decodes the part after that comma, as the spec says; a descriptor
whose text contains any other number of commas is not decoded at all: the
tuple unpacking raises a ValueError. -/
theorem C8_amended (meta payload d : List Char)
    (hm : ',' ∉ meta) (hp : ',' ∉ payload) :
    extractPayload (meta ++ ',' :: payload) = b64decode payload ∧
    (d.count ',' ≠ 1 → ∃ msg, extractPayload d = Except.error (PyErr.valueError msg)) := by
  constructor
  · unfold extractPayload
    rw [pySplit_append payload hm, pySplit_of_not_mem hp]
    rfl
  · intro hc
    unfold extractPayload
    have hlen := length_pySplit ',' d
    cases hsd : pySplit ',' d with
    | nil => exact absurd hsd (pySplit_ne_nil ',' d)
    | cons a rest =>
      cases rest with
      | nil => exact ⟨_, rfl⟩
      | cons b rest2 =>
        cases rest2 with
        | nil =>
          rw [hsd] at hlen
          simp at hlen
          exact absurd hlen hc
        | cons c3 rest3 => exact ⟨_, rfl⟩

/-- Witness for C8 amended: the well-formed single-comma descriptor
"data,MQ==" decodes to the base64 decoding of its remainder. -/
theorem C8_amended_witness :
    extractPayload (("data").toList ++ ',' :: ("MQ==").toList)
      = b64decode (("MQ==").toList) :=
  (C8_amended (("data").toList) (("MQ==").toList) [] (by decide) (by decide)).1

/-- A successful batch parse returns the input session with only the atlas
overwritten, namely by the atlas of the decomposition just constructed. -/
lemma parse_files_session_eq (ext : Ext) (sess : Session) (contents : List (List Char))
    (files : Option (List (List Char))) (t : ℚ) (d : Decomposition) (s1 : Session)
    (h : parse_files ext sess contents files t = Except.ok (d, s1)) :
    s1 = { sess with atlas := some d.atlas } := by
  unfold parse_files at h
  cases files with
  | none => exact Except.noConfusion h
  | some fs =>
    dsimp only at h
    cases hm : (contents.zip fs).mapM (fun cf => parseFile ext cf.1 cf.2) with
    | error e => rw [hm] at h; exact Except.noConfusion h
    | ok data =>
      rw [hm] at h
      dsimp only at h
      cases hd : ext.mkDecomposition data t with
      | error e => rw [hd] at h; exact Except.noConfusion h
      | ok dcp =>
        rw [hd] at h
        dsimp only at h
        injection h with h2
        rw [Prod.mk.injEq] at h2
        obtain ⟨hdcp, hs⟩ := h2
        rw [← hs, hdcp]

/-- The slot-1 step never writes `dcp2`, `match_group` or `match_df`. -/
lemma slot1Step_frame (ext : Ext) (sess : Session)
    (c1 n1 : Option (List (List Char))) (t : ℚ) :
    (slot1Step ext sess c1 n1 t).1.dcp2 = sess.dcp2 ∧
    (slot1Step ext sess c1 n1 t).1.match_group = sess.match_group ∧
    (slot1Step ext sess c1 n1 t).1.match_df = sess.match_df := by
  unfold slot1Step
  cases c1 with
  | none => exact ⟨rfl, rfl, rfl⟩
  | some c =>
    dsimp only
    cases hp : parse_files ext sess c n1 t with
    | error e => exact ⟨rfl, rfl, rfl⟩
    | ok r =>
      obtain ⟨d, s1⟩ := r
      have hs := parse_files_session_eq ext sess c n1 t d s1 hp
      subst hs
      dsimp only
      cases hr : ext.runDcp d <;> exact ⟨rfl, rfl, rfl⟩

/-- Outside setting 2 the slot-2 step never writes `dcp2`. -/
lemma slot2Step_dcp2 (ext : Ext) (sess : Session) (setting : Option ℤ)
    (c2 n2 : Option (List (List Char))) (t a : ℚ) (h : setting ≠ some 2) :
    (slot2Step ext sess setting c2 n2 t a).1.dcp2 = sess.dcp2 := by
  unfold slot2Step
  rw [if_neg h]
  split_ifs with h1 h2 h3
  · cases c2 with
    | none => rfl
    | some c =>
      dsimp only
      cases hp : parse_files ext sess c n2 t with
      | error e => rfl
      | ok r =>
        obtain ⟨d, s1⟩ := r
        have hs := parse_files_session_eq ext sess c n2 t d s1 hp
        subst hs
        dsimp only
        cases hr : ext.runDcp d with
        | error e => rfl
        | ok u =>
          dsimp only
          cases hd1 : sess.dcp1 with
          | none => rfl
          | some d1 =>
            dsimp only
            cases hcm : ext.compute_match d1 d (pyInt (a / 100 * (d.atlas.size : ℚ))) with
            | error e => rfl
            | ok m => rfl
  · rfl
  · rfl
  · rfl

/-- Outside setting 3 the slot-2 step never writes `match_group` or
`match_df`. -/
lemma slot2Step_match3 (ext : Ext) (sess : Session) (setting : Option ℤ)
    (c2 n2 : Option (List (List Char))) (t a : ℚ) (h : setting ≠ some 3) :
    (slot2Step ext sess setting c2 n2 t a).1.match_group = sess.match_group ∧
    (slot2Step ext sess setting c2 n2 t a).1.match_df = sess.match_df := by
  unfold slot2Step
  rw [if_neg h]
  split_ifs with h1 h2 h3
  · cases c2 with
    | none => exact ⟨rfl, rfl⟩
    | some c =>
      dsimp only
      cases hp : parse_files ext sess c n2 t with
      | error e => exact ⟨rfl, rfl⟩
      | ok r =>
        obtain ⟨d, s1⟩ := r
        have hs := parse_files_session_eq ext sess c n2 t d s1 hp
        subst hs
        dsimp only
        cases hr : ext.runDcp d <;> exact ⟨rfl, rfl⟩
  · exact ⟨rfl, rfl⟩
  · exact ⟨rfl, rfl⟩
  · exact ⟨rfl, rfl⟩

/-- Outside setting 2 the whole try block never writes `dcp2`. -/
lemma tryBody_dcp2 (ext : Ext) (sess : Session) (setting : Option ℤ)
    (c1 c2 n1 n2 : Option (List (List Char))) (t a : ℚ) (h : setting ≠ some 2) :
    (tryBody ext sess setting c1 c2 n1 n2 t a).1.dcp2 = sess.dcp2 := by
  unfold tryBody
  have hf1 := slot1Step_frame ext sess c1 n1 t
  cases h1 : slot1Step ext sess c1 n1 t with
  | mk s1 e1 =>
    rw [h1] at hf1
    cases e1 with
    | some e => exact hf1.1
    | none => rw [slot2Step_dcp2 ext s1 setting c2 n2 t a h]; exact hf1.1

/-- Outside setting 3 the whole try block never writes `match_group` or
`match_df`. -/
lemma tryBody_match3 (ext : Ext) (sess : Session) (setting : Option ℤ)
    (c1 c2 n1 n2 : Option (List (List Char))) (t a : ℚ) (h : setting ≠ some 3) :
    (tryBody ext sess setting c1 c2 n1 n2 t a).1.match_group = sess.match_group ∧
    (tryBody ext sess setting c1 c2 n1 n2 t a).1.match_df = sess.match_df := by
  unfold tryBody
  have hf1 := slot1Step_frame ext sess c1 n1 t
  cases h1 : slot1Step ext sess c1 n1 t with
  | mk s1 e1 =>
    rw [h1] at hf1
    cases e1 with
    | some e => exact ⟨hf1.2.1, hf1.2.2⟩
    | none =>
      have h2 := slot2Step_match3 ext s1 setting c2 n2 t a h
      exact ⟨h2.1.trans hf1.2.1, h2.2.trans hf1.2.2⟩

/-- Outside setting 2 the upload handler never writes `dcp2`. -/
lemma upload_dcp2 (ext : Ext) (sess : Session) (setting : Option ℤ)
    (c1 c2 n1 n2 : Option (List (List Char))) (t a : ℚ) (h : setting ≠ some 2) :
    (upload ext sess setting c1 c2 n1 n2 t a).1.dcp2 = sess.dcp2 := by
  unfold upload
  split_ifs
  · rfl
  · exact tryBody_dcp2 ext sess setting c1 c2 n1 n2 t a h

/-- Outside setting 3 the upload handler never writes `match_df`. -/
lemma upload_match_df (ext : Ext) (sess : Session) (setting : Option ℤ)
    (c1 c2 n1 n2 : Option (List (List Char))) (t a : ℚ) (h : setting ≠ some 3) :
    (upload ext sess setting c1 c2 n1 n2 t a).1.match_df = sess.match_df := by
  unfold upload
  split_ifs
  · rfl
  · exact (tryBody_match3 ext sess setting c1 c2 n1 n2 t a h).2

/-- Inductive invariant of the interaction machine: `dcp2` can be populated
only after an upload event recorded under setting 2, and `match_df` only
after one recorded under setting 3 (the record is cleared by a reset, which
also clears both fields). -/
lemma runLog_invariant (ext : Ext) (es : List Event) :
    ((runLog ext es).1.sess.dcp2.isSome = true → some 2 ∈ (runLog ext es).2) ∧
    ((runLog ext es).1.sess.match_df.isSome = true → some 3 ∈ (runLog ext es).2) := by
  suffices h : ∀ p : UIState × List (Option ℤ),
      (p.1.sess.dcp2.isSome = true → some 2 ∈ p.2) →
      (p.1.sess.match_df.isSome = true → some 3 ∈ p.2) →
      (((es.foldl (stepLog ext) p).1.sess.dcp2.isSome = true →
          some 2 ∈ (es.foldl (stepLog ext) p).2) ∧
       ((es.foldl (stepLog ext) p).1.sess.match_df.isSome = true →
          some 3 ∈ (es.foldl (stepLog ext) p).2)) by
    exact h (initUI, []) (fun hh => absurd hh (by decide)) (fun hh => absurd hh (by decide))
  induction es with
  | nil => intro p h1 h2; exact ⟨h1, h2⟩
  | cons e es ih =>
    intro p h1 h2
    rw [List.foldl_cons]
    cases e with
    | setMode v => exact ih ({ p.1 with setting := v }, p.2) h1 h2
    | resetEv =>
      exact ih (initUI, []) (fun hh => absurd hh (by decide)) (fun hh => absurd hh (by decide))
    | uploadEv c1 c2 n1 n2 t a =>
      apply ih
      · intro hh
        by_cases hset : p.1.setting = some 2
        · exact List.mem_append.2 (Or.inr (by rw [hset]; exact List.mem_singleton.2 rfl))
        · rw [show (stepLog ext p (Event.uploadEv c1 c2 n1 n2 t a)).1.sess
              = (upload ext p.1.sess p.1.setting c1 c2 n1 n2 t a).1 from rfl,
            upload_dcp2 ext p.1.sess p.1.setting c1 c2 n1 n2 t a hset] at hh
          exact List.mem_append.2 (Or.inl (h1 hh))
      · intro hh
        by_cases hset : p.1.setting = some 3
        · exact List.mem_append.2 (Or.inr (by rw [hset]; exact List.mem_singleton.2 rfl))
        · rw [show (stepLog ext p (Event.uploadEv c1 c2 n1 n2 t a)).1.sess
              = (upload ext p.1.sess p.1.setting c1 c2 n1 n2 t a).1 from rfl,
            upload_match_df ext p.1.sess p.1.setting c1 c2 n1 n2 t a hset] at hh
          exact List.mem_append.2 (Or.inl (h2 hh))

/-- C3 counterexample: the claim that no sequence of mode selections,
uploads and resets can leave both the comparison decomposition and the match
result populated is false: the `mixedModeTrace` — upload both groups under
Comparison, switch the radio to MatchModes without a reset, upload slot 2 —
reaches a state with `dcp2` and `match_df` both set, because neither
`input_setting` nor `upload` clears fields written under the previous mode. -/
theorem C3_counterexample :
    (runLog extC mixedModeTrace).1.sess.dcp2.isSome = true ∧
    (runLog extC mixedModeTrace).1.sess.match_df.isSome = true :=
  ⟨rfl, rfl⟩

/-- C3 amended: the mutual-exclusion invariant does hold for every event
sequence in which all uploads since the last reset were performed under one
and the same mode selection: then at most one of {comparison populated,
match result populated} holds.  Changing the mode between uploads without a
reset is exactly what can violate it. -/
theorem C3_amended (ext : Ext) (es : List Event)
    (huni : ∀ x ∈ (runLog ext es).2, ∀ y ∈ (runLog ext es).2, x = y) :
    ¬((runLog ext es).1.sess.dcp2.isSome = true ∧
      (runLog ext es).1.sess.match_df.isSome = true) := by
  rintro ⟨h2, h3⟩
  have i := runLog_invariant ext es
  have e23 := huni (some 2) (i.1 h2) (some 3) (i.2 h3)
  exact absurd e23 (by decide)

/-- Witness for C3 amended: a trace whose only uploads happen under setting
2 cannot end with both fields populated. -/
theorem C3_amended_witness :
    ¬((runLog extC singleModeTrace).1.sess.dcp2.isSome = true ∧
      (runLog extC singleModeTrace).1.sess.match_df.isSome = true) :=
  C3_amended extC singleModeTrace (by
    intro x hx y hy
    have hlog : (runLog extC singleModeTrace).2 = [some 2] := rfl
    rw [hlog] at hx hy
    rw [List.mem_singleton.1 hx, List.mem_singleton.1 hy])

/-- When the upload inputs are not all `None`, the handler's resulting
session is the try block's session, and the error flag is clear exactly when
the try block raised nothing. -/
lemma upload_not_all_none (ext : Ext) (sess : Session) (setting : Option ℤ)
    (c1 c2 n1 n2 : Option (List (List Char))) (t a : ℚ)
    (h : ¬(c1 = none ∧ c2 = none ∧ n1 = none ∧ n2 = none)) :
    (upload ext sess setting c1 c2 n1 n2 t a).1
        = (tryBody ext sess setting c1 c2 n1 n2 t a).1 ∧
    ((upload ext sess setting c1 c2 n1 n2 t a).2.error = false ↔
      (tryBody ext sess setting c1 c2 n1 n2 t a).2 = none) := by
  unfold upload
  rw [if_neg h]
  dsimp only
  refine ⟨rfl, ?_⟩
  cases h2 : (tryBody ext sess setting c1 c2 n1 n2 t a).2 with
  | none => simp
  | some e => simp

/-- C2 counterexample: uploading slot 2 under MatchModes while the reference
is still absent signals MissingReference, but `self.match_group` has already
been overwritten with the freshly parsed decomposition before the check, so
the offending slot's state DOES change, contrary to the claim. -/
theorem C2_counterexample :
    (upload extC initSession (some 3) none (some [csvDescriptor]) none (some [csvName])
        (72/100) 5).2.message = "Please upload Reference group before Match group." ∧
    (upload extC initSession (some 3) none (some [csvDescriptor]) none (some [csvName])
        (72/100) 5).2.error = true ∧
    (upload extC initSession (some 3) none (some [csvDescriptor]) none (some [csvName])
        (72/100) 5).1.match_group.isSome = true ∧
    initSession.match_group = none := by
  exact ⟨rfl, rfl, rfl, rfl⟩

/-- C2 amended: in MatchModes, a slot-2 upload that parses successfully
while the reference is still absent signals MissingReference and leaves the
match result (and every other field but two) untouched, but it overwrites
`match_group` with the newly parsed decomposition and `atlas` with that
decomposition's atlas: the failed upload does change the affected slot. -/
theorem C2_amended (ext : Ext) (sess : Session) (c2 : List (List Char))
    (n1 n2 : Option (List (List Char))) (t a : ℚ) (d : Decomposition) (s1 : Session)
    (href : sess.dcp1 = none)
    (hguard : sess.dcp2 = none ∨ sess.match_group = none)
    (hparse : parse_files ext sess c2 n2 t = Except.ok (d, s1))
    (hrun : ext.runDcp d = Except.ok ()) :
    upload ext sess (some 3) none (some c2) n1 n2 t a =
      ({ sess with atlas := some d.atlas, match_group := some d },
       { message := "Please upload Reference group before Match group.",
         error := true, noUpdate := false }) := by
  have hs1 := parse_files_session_eq ext sess c2 n2 t d s1 hparse
  subst hs1
  unfold upload
  rw [if_neg (by simp)]
  unfold tryBody slot1Step
  dsimp only
  unfold slot2Step
  rw [if_pos (by decide), if_pos ⟨by simp, hguard⟩, if_neg (by decide), if_pos rfl]
  dsimp only
  rw [hparse]
  dsimp only
  rw [hrun]
  dsimp only
  rw [href]
  rfl

/-- Witness for C2 amended: from the empty session, a successful slot-2
parse under MatchModes ends with MissingReference signalled and
`match_group` set. -/
theorem C2_amended_witness :
    upload extC initSession (some 3) none (some [csvDescriptor]) none (some [csvName])
        (72/100) 5 =
      ({ initSession with
          atlas := some atlasA,
          match_group := some ({ atlas := atlasA, sig := 7 } : Decomposition) },
       { message := "Please upload Reference group before Match group.",
         error := true, noUpdate := false }) :=
  C2_amended extC initSession [csvDescriptor] none (some [csvName]) (72/100) 5
    ({ atlas := atlasA, sig := 7 }) ({ initSession with atlas := some atlasA })
    rfl (Or.inl rfl) rfl rfl

/-- C10: a successful `_parse_files` call overwrites `Session.atlas` with
the atlas of the decomposition it just constructed and touches no other
session field; consequently, after an error-free slot-2 upload the session
atlas is the second group's atlas (under Comparison the atlas of the new
`dcp2`, under MatchModes the atlas of the new `match_group`), not the
reference's. -/
theorem C10_parse_sets_atlas :
    (∀ (ext : Ext) (sess : Session) (contents : List (List Char))
        (files : Option (List (List Char))) (t : ℚ) (d : Decomposition) (s1 : Session),
        parse_files ext sess contents files t = Except.ok (d, s1) →
        s1 = { sess with atlas := some d.atlas }) ∧
    (∀ (ext : Ext) (sess : Session) (c1 n1 n2 : Option (List (List Char)))
        (c2 : List (List Char)) (t a : ℚ),
        sess.dcp2 = none →
        (upload ext sess (some 2) c1 (some c2) n1 n2 t a).2.error = false →
        (upload ext sess (some 2) c1 (some c2) n1 n2 t a).1.dcp2.isSome = true ∧
        (upload ext sess (some 2) c1 (some c2) n1 n2 t a).1.atlas =
          Option.map Decomposition.atlas
            ((upload ext sess (some 2) c1 (some c2) n1 n2 t a).1.dcp2)) ∧
    (∀ (ext : Ext) (sess : Session) (c1 n1 n2 : Option (List (List Char)))
        (c2 : List (List Char)) (t a : ℚ),
        sess.match_group = none →
        (upload ext sess (some 3) c1 (some c2) n1 n2 t a).2.error = false →
        (upload ext sess (some 3) c1 (some c2) n1 n2 t a).1.match_group.isSome = true ∧
        (upload ext sess (some 3) c1 (some c2) n1 n2 t a).1.atlas =
          Option.map Decomposition.atlas
            ((upload ext sess (some 3) c1 (some c2) n1 n2 t a).1.match_group)) := by
  refine ⟨parse_files_session_eq, ?_, ?_⟩
  · intro ext sess c1 n1 n2 c2 t a hd2 herr
    obtain ⟨hup1, hupe⟩ :=
      upload_not_all_none ext sess (some 2) c1 (some c2) n1 n2 t a (by simp)
    rw [hup1]
    have htb := hupe.1 herr
    unfold tryBody at htb ⊢
    have hf1 := slot1Step_frame ext sess c1 n1 t
    cases h1 : slot1Step ext sess c1 n1 t with
    | mk s1 e1 =>
      rw [h1] at htb hf1
      cases e1 with
      | some e => exact absurd htb (by simp)
      | none =>
        dsimp only at htb ⊢
        unfold slot2Step at htb ⊢
        rw [if_pos (by decide), if_pos ⟨by simp, Or.inl (hf1.1.trans hd2)⟩,
          if_pos rfl] at htb ⊢
        dsimp only at htb ⊢
        cases hp : parse_files ext s1 c2 n2 t with
        | error e => rw [hp] at htb; exact absurd htb (by simp)
        | ok r =>
          obtain ⟨d, s2⟩ := r
          have hs2 := parse_files_session_eq ext s1 c2 n2 t d s2 hp
          subst hs2
          rw [hp] at htb
          dsimp only at htb ⊢
          cases hr : ext.runDcp d with
          | error e => rw [hr] at htb; exact absurd htb (by simp)
          | ok u => exact ⟨rfl, rfl⟩
  · intro ext sess c1 n1 n2 c2 t a hmg herr
    obtain ⟨hup1, hupe⟩ :=
      upload_not_all_none ext sess (some 3) c1 (some c2) n1 n2 t a (by simp)
    rw [hup1]
    have htb := hupe.1 herr
    unfold tryBody at htb ⊢
    have hf1 := slot1Step_frame ext sess c1 n1 t
    cases h1 : slot1Step ext sess c1 n1 t with
    | mk s1 e1 =>
      rw [h1] at htb hf1
      cases e1 with
      | some e => exact absurd htb (by simp)
      | none =>
        dsimp only at htb ⊢
        unfold slot2Step at htb ⊢
        rw [if_pos (by decide), if_pos ⟨by simp, Or.inr (hf1.2.1.trans hmg)⟩,
          if_neg (by decide), if_pos rfl] at htb ⊢
        dsimp only at htb ⊢
        cases hp : parse_files ext s1 c2 n2 t with
        | error e => rw [hp] at htb; exact absurd htb (by simp)
        | ok r =>
          obtain ⟨d, s2⟩ := r
          have hs2 := parse_files_session_eq ext s1 c2 n2 t d s2 hp
          subst hs2
          rw [hp] at htb
          dsimp only at htb ⊢
          cases hr : ext.runDcp d with
          | error e => rw [hr] at htb; exact absurd htb (by simp)
          | ok u =>
            rw [hr] at htb
            dsimp only at htb ⊢
            cases hdc1 : s1.dcp1 with
            | none => rw [hdc1] at htb; exact absurd htb (by simp)
            | some d1 =>
              rw [hdc1] at htb
              dsimp only at htb ⊢
              cases hcm : ext.compute_match d1 d (pyInt (a / 100 * (d.atlas.size : ℚ))) with
              | error e => rw [hcm] at htb; exact absurd htb (by simp)
              | ok m => exact ⟨rfl, rfl⟩

/-- Witness for C10: an error-free slot-2 upload under Comparison ends with
the session atlas equal to the atlas of the new second-group decomposition. -/
theorem C10_witness :
    (upload extC initSession (some 2) none (some [csvDescriptor]) none (some [csvName])
        (72/100) 5).1.dcp2.isSome = true ∧
    (upload extC initSession (some 2) none (some [csvDescriptor]) none (some [csvName])
        (72/100) 5).1.atlas =
      Option.map Decomposition.atlas
        ((upload extC initSession (some 2) none (some [csvDescriptor]) none
            (some [csvName]) (72/100) 5).1.dcp2) :=
  C10_parse_sets_atlas.2.1 extC initSession none none (some [csvName]) [csvDescriptor]
    (72/100) 5 rfl rfl

end Nidmd
